import Mathlib

/-!
Verification of the Step Player of the JavaScript event-loop visualizer.

The source is a React component holding seven pieces of state
(`isPlaying`, `step`, `callStack`, `microtaskQueue`, `callbackQueue`,
`consoleOutput`, `lookingAt`), a hardcoded table of step closures, a
timer tick that applies `steps[step]` and increments `step` while
`step < steps.length` (setting `isPlaying` to false otherwise), a
`resetState` function, and a play/pause toggle button.  Two variants of
the component exist in the repository; variant A has 13 step closures,
variant B has 12.  Both are embedded below.
-/

/-- The `lookingAt` focus indicator: `"stack" | "microtask" | "callback"`. -/
inductive LookingAt where
  | stack
  | microtask
  | callback
deriving DecidableEq, Repr

/-- The observable Execution State held by the component: the call stack,
the two queues, the console output and the focus indicator. -/
structure ExecState where
  callStack : List String
  microtaskQueue : List String
  callbackQueue : List String
  consoleOutput : List String
  lookingAt : LookingAt
deriving DecidableEq, Repr

/-- The all-empty initial state (the `useState` initializers). -/
def initialState : ExecState :=
  { callStack := []
    microtaskQueue := []
    callbackQueue := []
    consoleOutput := []
    lookingAt := LookingAt.stack }

/-- Variant A step table (13 closures).  Each case is the translation of
one closure of the `steps` array: a `setX(v)` call becomes an overwrite of
field `X`, a `setX((prev) => [...prev, v])` call becomes an append, and a
field with no setter call in the closure is left unchanged.  Indices past
the table leave the state unchanged. -/
def stepA (i : Nat) (s : ExecState) : ExecState :=
  match i with
  | 0 => { s with callStack := ["Global Execution Context"]
                  lookingAt := LookingAt.stack }
  | 1 => { s with callStack := ["console.log(\"Start\")", "Global Execution Context"]
                  consoleOutput := s.consoleOutput ++ ["Start"]
                  lookingAt := LookingAt.stack }
  | 2 => { s with callStack := ["Global Execution Context"]
                  lookingAt := LookingAt.stack }
  | 3 => { s with callbackQueue := s.callbackQueue ++ ["() => console.log(\"Timeout\")"]
                  lookingAt := LookingAt.callback }
  | 4 => { s with microtaskQueue := s.microtaskQueue ++ ["() => console.log(\"Promise\")"]
                  lookingAt := LookingAt.microtask }
  | 5 => { s with callStack := ["console.log(\"End\")", "Global Execution Context"]
                  consoleOutput := s.consoleOutput ++ ["End"]
                  lookingAt := LookingAt.stack }
  | 6 => { s with callStack := ["Global Execution Context"] }
  | 7 => { s with callStack := []
                  lookingAt := LookingAt.microtask }
  | 8 => { s with callStack := ["Promise callback"]
                  microtaskQueue := []
                  consoleOutput := s.consoleOutput ++ ["Promise"]
                  lookingAt := LookingAt.stack }
  | 9 => { s with callStack := []
                  lookingAt := LookingAt.callback }
  | 10 => { s with callStack := ["setTimeout callback"]
                   callbackQueue := []
                   consoleOutput := s.consoleOutput ++ ["Timeout"]
                   lookingAt := LookingAt.stack }
  | 11 => { s with callStack := []
                   lookingAt := LookingAt.stack }
  | 12 => { s with callStack := []
                   lookingAt := LookingAt.stack }
  | _ => s

/-- Variant B step table (12 closures), translated the same way. -/
def stepB (i : Nat) (s : ExecState) : ExecState :=
  match i with
  | 0 => { s with callStack := ["Global Execution Context"]
                  lookingAt := LookingAt.stack }
  | 1 => { s with callStack := ["console.log(\"Start\")", "Global Execution Context"]
                  consoleOutput := s.consoleOutput ++ ["Start"]
                  lookingAt := LookingAt.stack }
  | 2 => { s with callStack := ["Global Execution Context"]
                  lookingAt := LookingAt.stack }
  | 3 => { s with callbackQueue := s.callbackQueue ++ ["setTimeout(() => console.log(\"Timeout\"))"]
                  lookingAt := LookingAt.callback }
  | 4 => { s with microtaskQueue := s.microtaskQueue ++ ["Promise.then(() => console.log(\"Promise\"))"]
                  lookingAt := LookingAt.microtask }
  | 5 => { s with callStack := ["console.log(\"End\")", "Global Execution Context"]
                  consoleOutput := s.consoleOutput ++ ["End"]
                  lookingAt := LookingAt.stack }
  | 6 => { s with callStack := ["Global Execution Context"]
                  lookingAt := LookingAt.microtask }
  | 7 => { s with callStack := ["Promise callback", "Global Execution Context"]
                  microtaskQueue := []
                  consoleOutput := s.consoleOutput ++ ["Promise"]
                  lookingAt := LookingAt.stack }
  | 8 => { s with callStack := ["Global Execution Context"]
                  lookingAt := LookingAt.callback }
  | 9 => { s with callStack := ["setTimeout callback", "Global Execution Context"]
                  callbackQueue := []
                  consoleOutput := s.consoleOutput ++ ["Timeout"]
                  lookingAt := LookingAt.stack }
  | 10 => { s with callStack := ["Global Execution Context"]
                   lookingAt := LookingAt.stack }
  | 11 => { s with callStack := []
                   lookingAt := LookingAt.stack }
  | _ => s

/-- Value of `steps.length` in variant A. -/
def numStepsA : Nat := 13

/-- Value of `steps.length` in variant B. -/
def numStepsB : Nat := 12

/-- The full component state: `isPlaying`, `step`, and the Execution
State. -/
structure PlayerState where
  isPlaying : Bool
  step : Nat
  exec : ExecState
deriving DecidableEq, Repr

/-- One timer tick of the `useEffect`, generic in the step table: if not
playing the effect returns early and no timer fires; otherwise if
`step < steps.length` it runs `steps[step]()` and `setStep(step + 1)`,
else it runs `setIsPlaying(false)`. -/
def tick (len : Nat) (f : Nat → ExecState → ExecState) (p : PlayerState) : PlayerState :=
  if p.isPlaying then
    if p.step < len then
      { p with exec := f p.step p.exec, step := p.step + 1 }
    else
      { p with isPlaying := false }
  else
    p

/-- Variant A tick. -/
def tickA : PlayerState → PlayerState := tick numStepsA stepA

/-- Variant B tick. -/
def tickB : PlayerState → PlayerState := tick numStepsB stepB

/-- The `resetState` handler: sets index 0, clears every piece of Execution State,
stops playing, and points the focus at the stack — unconditionally. -/
def resetState (_p : PlayerState) : PlayerState :=
  { isPlaying := false, step := 0, exec := initialState }

/-- The play/pause button: `setIsPlaying(!isPlaying)`; nothing else. -/
def togglePlay (p : PlayerState) : PlayerState :=
  { p with isPlaying := !p.isPlaying }

/-- The player state right after pressing play from a cold start. -/
def startPlayer : PlayerState :=
  { isPlaying := true, step := 0, exec := initialState }

/-- Player state after `n` ticks from a cold start, variant A. -/
def runA (n : Nat) : PlayerState := tickA^[n] startPlayer

/-- Player state after `n` ticks from a cold start, variant B. -/
def runB (n : Nat) : PlayerState := tickB^[n] startPlayer

/-- Execution State after replaying the first `n` transitions of variant
A, in order, from the initial state. -/
def replayA : Nat → ExecState
  | 0 => initialState
  | n + 1 => stepA n (replayA n)

/-- Execution State after replaying the first `n` transitions of variant
B, in order, from the initial state. -/
def replayB : Nat → ExecState
  | 0 => initialState
  | n + 1 => stepB n (replayB n)

/-- Direct construction of the tabulated states of variant A: entry `i`
is the Execution State after the first `i` transitions, written out
literally by hand-tracing the step closures of the source (fields in order:
call stack, microtask queue, callback queue, console output, focus). -/
def tableA : List ExecState :=
  [ ⟨[], [], [], [], LookingAt.stack⟩,
    ⟨["Global Execution Context"], [], [], [], LookingAt.stack⟩,
    ⟨["console.log(\"Start\")", "Global Execution Context"], [], [], ["Start"], LookingAt.stack⟩,
    ⟨["Global Execution Context"], [], [], ["Start"], LookingAt.stack⟩,
    ⟨["Global Execution Context"], [], ["() => console.log(\"Timeout\")"], ["Start"],
      LookingAt.callback⟩,
    ⟨["Global Execution Context"], ["() => console.log(\"Promise\")"],
      ["() => console.log(\"Timeout\")"], ["Start"], LookingAt.microtask⟩,
    ⟨["console.log(\"End\")", "Global Execution Context"], ["() => console.log(\"Promise\")"],
      ["() => console.log(\"Timeout\")"], ["Start", "End"], LookingAt.stack⟩,
    ⟨["Global Execution Context"], ["() => console.log(\"Promise\")"],
      ["() => console.log(\"Timeout\")"], ["Start", "End"], LookingAt.stack⟩,
    ⟨[], ["() => console.log(\"Promise\")"], ["() => console.log(\"Timeout\")"],
      ["Start", "End"], LookingAt.microtask⟩,
    ⟨["Promise callback"], [], ["() => console.log(\"Timeout\")"], ["Start", "End", "Promise"],
      LookingAt.stack⟩,
    ⟨[], [], ["() => console.log(\"Timeout\")"], ["Start", "End", "Promise"], LookingAt.callback⟩,
    ⟨["setTimeout callback"], [], [], ["Start", "End", "Promise", "Timeout"], LookingAt.stack⟩,
    ⟨[], [], [], ["Start", "End", "Promise", "Timeout"], LookingAt.stack⟩,
    ⟨[], [], [], ["Start", "End", "Promise", "Timeout"], LookingAt.stack⟩ ]

/-- Direct construction of the tabulated states of variant B, entry `i`
being the Execution State after the first `i` transitions. -/
def tableB : List ExecState :=
  [ ⟨[], [], [], [], LookingAt.stack⟩,
    ⟨["Global Execution Context"], [], [], [], LookingAt.stack⟩,
    ⟨["console.log(\"Start\")", "Global Execution Context"], [], [], ["Start"], LookingAt.stack⟩,
    ⟨["Global Execution Context"], [], [], ["Start"], LookingAt.stack⟩,
    ⟨["Global Execution Context"], [], ["setTimeout(() => console.log(\"Timeout\"))"], ["Start"],
      LookingAt.callback⟩,
    ⟨["Global Execution Context"], ["Promise.then(() => console.log(\"Promise\"))"],
      ["setTimeout(() => console.log(\"Timeout\"))"], ["Start"], LookingAt.microtask⟩,
    ⟨["console.log(\"End\")", "Global Execution Context"],
      ["Promise.then(() => console.log(\"Promise\"))"],
      ["setTimeout(() => console.log(\"Timeout\"))"], ["Start", "End"], LookingAt.stack⟩,
    ⟨["Global Execution Context"], ["Promise.then(() => console.log(\"Promise\"))"],
      ["setTimeout(() => console.log(\"Timeout\"))"], ["Start", "End"], LookingAt.microtask⟩,
    ⟨["Promise callback", "Global Execution Context"], [],
      ["setTimeout(() => console.log(\"Timeout\"))"], ["Start", "End", "Promise"],
      LookingAt.stack⟩,
    ⟨["Global Execution Context"], [], ["setTimeout(() => console.log(\"Timeout\"))"],
      ["Start", "End", "Promise"], LookingAt.callback⟩,
    ⟨["setTimeout callback", "Global Execution Context"], [], [],
      ["Start", "End", "Promise", "Timeout"], LookingAt.stack⟩,
    ⟨["Global Execution Context"], [], [], ["Start", "End", "Promise", "Timeout"],
      LookingAt.stack⟩,
    ⟨[], [], [], ["Start", "End", "Promise", "Timeout"], LookingAt.stack⟩ ]

/-- C1: replaying the step table from the initial all-empty state
satisfies the concrete scenario: after 2 ticks the console output is
exactly `["Start"]` and the focus indicator is `stack`; after 5 ticks the
microtask queue and the callback queue each hold exactly one entry; and
after every transition of the table has been applied (13 ticks in variant
A, 12 in variant B) the console output is exactly
`["Start", "End", "Promise", "Timeout"]` and the call stack, microtask
queue and callback queue are all empty. -/
theorem claim1_concrete_scenario :
    ((runA 2).exec.consoleOutput = ["Start"] ∧ (runA 2).exec.lookingAt = LookingAt.stack ∧
     (runB 2).exec.consoleOutput = ["Start"] ∧ (runB 2).exec.lookingAt = LookingAt.stack) ∧
    ((runA 5).exec.microtaskQueue.length = 1 ∧ (runA 5).exec.callbackQueue.length = 1 ∧
     (runB 5).exec.microtaskQueue.length = 1 ∧ (runB 5).exec.callbackQueue.length = 1) ∧
    ((runA numStepsA).exec.consoleOutput = ["Start", "End", "Promise", "Timeout"] ∧
     (runA numStepsA).exec.callStack = [] ∧
     (runA numStepsA).exec.microtaskQueue = [] ∧
     (runA numStepsA).exec.callbackQueue = [] ∧
     (runB numStepsB).exec.consoleOutput = ["Start", "End", "Promise", "Timeout"] ∧
     (runB numStepsB).exec.callStack = [] ∧
     (runB numStepsB).exec.microtaskQueue = [] ∧
     (runB numStepsB).exec.callbackQueue = []) := by
  decide

/-- C2: for every valid step index `i` (`0 ≤ i ≤` table length), `i`
ticks from a cold start and the pure replay of the first `i` transitions
agree, and both equal the `i`-th directly constructed tabulated state, in
each variant: replay from a cold start is deterministic. -/
theorem claim2_replay_matches_table :
    (∀ i, i ≤ numStepsA →
      (runA i).exec = replayA i ∧ replayA i = tableA.getD i initialState) ∧
    (∀ i, i ≤ numStepsB →
      (runB i).exec = replayB i ∧ replayB i = tableB.getD i initialState) := by
  decide

/-- Witness for C2 at the concrete index 5 of variant A. -/
theorem claim2_replay_matches_table_witness :
    (runA 5).exec = replayA 5 ∧ replayA 5 = tableA.getD 5 initialState :=
  claim2_replay_matches_table.1 5 (by decide)

/-- Once the index is at or past the table length, any number of ticks
leaves both the index and the Execution State unchanged (only the
`isPlaying` flag can still flip to `false`). -/
theorem tick_halted_iterate (len : Nat) (f : Nat → ExecState → ExecState) :
    ∀ (n : Nat) (p : PlayerState), len ≤ p.step →
      ((tick len f)^[n] p).step = p.step ∧ ((tick len f)^[n] p).exec = p.exec := by
  intro n
  induction n with
  | zero => intro p _; exact ⟨rfl, rfl⟩
  | succ k ih =>
    intro p h
    rw [Function.iterate_succ_apply]
    have h1 : (tick len f p).step = p.step ∧ (tick len f p).exec = p.exec := by
      unfold tick
      by_cases hp : p.isPlaying <;> simp [hp, Nat.not_lt.mpr h]
    obtain ⟨hs, he⟩ := h1
    have h2 := ih (tick len f p) (by rw [hs]; exact h)
    exact ⟨h2.1.trans hs, h2.2.trans he⟩

/-- C3: while playing with the index in range, a tick applies exactly the
transition at the current index and increments the index by exactly 1;
in every other situation a tick leaves the index and the Execution State
unchanged; the play/pause toggle never touches the index or the state;
once the index is at the table length no number of further ticks ever
applies a transition or moves the index; and the only escape is
`resetState`, which returns index 0. Stated for both variants. -/
theorem claim3_step_index_discipline :
    ∀ p : PlayerState,
      ((p.isPlaying = true ∧ p.step < numStepsA) →
        (tickA p).step = p.step + 1 ∧ (tickA p).exec = stepA p.step p.exec) ∧
      (¬(p.isPlaying = true ∧ p.step < numStepsA) →
        (tickA p).step = p.step ∧ (tickA p).exec = p.exec) ∧
      ((p.isPlaying = true ∧ p.step < numStepsB) →
        (tickB p).step = p.step + 1 ∧ (tickB p).exec = stepB p.step p.exec) ∧
      (¬(p.isPlaying = true ∧ p.step < numStepsB) →
        (tickB p).step = p.step ∧ (tickB p).exec = p.exec) ∧
      ((togglePlay p).step = p.step ∧ (togglePlay p).exec = p.exec) ∧
      (numStepsA ≤ p.step →
        ∀ n, (tickA^[n] p).step = p.step ∧ (tickA^[n] p).exec = p.exec) ∧
      (numStepsB ≤ p.step →
        ∀ n, (tickB^[n] p).step = p.step ∧ (tickB^[n] p).exec = p.exec) ∧
      (resetState p).step = 0 := by
  intro p
  refine ⟨?_, ?_, ?_, ?_, ⟨rfl, rfl⟩, ?_, ?_, rfl⟩
  · intro ⟨hp, hl⟩; simp [tickA, tick, hp, hl]
  · intro h
    unfold tickA tick
    by_cases hp : p.isPlaying
    · have hl : ¬p.step < numStepsA := fun hlt => h ⟨hp, hlt⟩
      simp [hp, hl]
    · simp [hp]
  · intro ⟨hp, hl⟩; simp [tickB, tick, hp, hl]
  · intro h
    unfold tickB tick
    by_cases hp : p.isPlaying
    · have hl : ¬p.step < numStepsB := fun hlt => h ⟨hp, hlt⟩
      simp [hp, hl]
    · simp [hp]
  · intro h n; exact tick_halted_iterate numStepsA stepA n p h
  · intro h n; exact tick_halted_iterate numStepsB stepB n p h

/-- Witness for C3 at the concrete player `⟨true, 0, initialState⟩`. -/
theorem claim3_step_index_discipline_witness :
    (tickA startPlayer).step = 0 + 1 ∧ (tickA startPlayer).exec = stepA 0 initialState :=
  (claim3_step_index_discipline startPlayer).1 ⟨rfl, by decide⟩

/-- C4: a tick with the index out of range (`step ≥ steps.length`) while
playing sets `isPlaying` to `false` (signals completion) and mutates
nothing: index and every part of the Execution State are unchanged.
Stated for both variants. -/
theorem claim4_out_of_range_no_mutation :
    ∀ p : PlayerState, p.isPlaying = true →
      (numStepsA ≤ p.step →
        (tickA p).isPlaying = false ∧ (tickA p).step = p.step ∧ (tickA p).exec = p.exec) ∧
      (numStepsB ≤ p.step →
        (tickB p).isPlaying = false ∧ (tickB p).step = p.step ∧ (tickB p).exec = p.exec) := by
  intro p hp
  constructor
  · intro h; simp [tickA, tick, hp, Nat.not_lt.mpr h]
  · intro h; simp [tickB, tick, hp, Nat.not_lt.mpr h]

/-- Witness for C4 at the concrete player `⟨true, 13, initialState⟩`. -/
theorem claim4_out_of_range_no_mutation_witness :
    (tickA { isPlaying := true, step := 13, exec := initialState }).isPlaying = false ∧
    (tickA { isPlaying := true, step := 13, exec := initialState }).step = 13 ∧
    (tickA { isPlaying := true, step := 13, exec := initialState }).exec = initialState :=
  (claim4_out_of_range_no_mutation
    { isPlaying := true, step := 13, exec := initialState } rfl).1 (by decide)

/-- C5: once the index has reached the table length, every further tick
(any number of them) is a no-op on the Execution State: call stack,
microtask queue, callback queue, console output, focus indicator and the
index itself are identical before and after. Stated for both variants. -/
theorem claim5_terminal_ticks_noop :
    ∀ (p : PlayerState) (n : Nat),
      (numStepsA ≤ p.step →
        (tickA^[n] p).exec = p.exec ∧ (tickA^[n] p).step = p.step) ∧
      (numStepsB ≤ p.step →
        (tickB^[n] p).exec = p.exec ∧ (tickB^[n] p).step = p.step) := by
  intro p n
  constructor
  · intro h
    have h1 := tick_halted_iterate numStepsA stepA n p h
    exact ⟨h1.2, h1.1⟩
  · intro h
    have h1 := tick_halted_iterate numStepsB stepB n p h
    exact ⟨h1.2, h1.1⟩

/-- Witness for C5: one tick at index 13 of variant A changes nothing. -/
theorem claim5_terminal_ticks_noop_witness :
    (tickA^[1] { isPlaying := true, step := 13, exec := initialState }).exec = initialState ∧
    (tickA^[1] { isPlaying := true, step := 13, exec := initialState }).step = 13 :=
  (claim5_terminal_ticks_noop
    { isPlaying := true, step := 13, exec := initialState } 1).1 (by decide)

/-- C6: `resetState`, invoked from any player state whatsoever, produces
the initial configuration: index 0, empty call stack, empty microtask
queue, empty callback queue, empty console output, and not playing. -/
theorem claim6_reset_from_anywhere :
    ∀ p : PlayerState,
      (resetState p).step = 0 ∧
      (resetState p).exec.callStack = [] ∧
      (resetState p).exec.microtaskQueue = [] ∧
      (resetState p).exec.callbackQueue = [] ∧
      (resetState p).exec.consoleOutput = [] ∧
      (resetState p).isPlaying = false :=
  fun _ => ⟨rfl, rfl, rfl, rfl, rfl, rfl⟩

/-- Witness for C6 at a concrete, thoroughly non-initial player state. -/
theorem claim6_reset_from_anywhere_witness :
    (resetState { isPlaying := true, step := 7,
                  exec := ⟨["x"], ["y"], ["z"], ["w"], LookingAt.callback⟩ }).step = 0 ∧
    (resetState { isPlaying := true, step := 7,
                  exec := ⟨["x"], ["y"], ["z"], ["w"], LookingAt.callback⟩ }).exec.callStack = [] ∧
    (resetState { isPlaying := true, step := 7,
                  exec := ⟨["x"], ["y"], ["z"], ["w"], LookingAt.callback⟩ }).exec.microtaskQueue = [] ∧
    (resetState { isPlaying := true, step := 7,
                  exec := ⟨["x"], ["y"], ["z"], ["w"], LookingAt.callback⟩ }).exec.callbackQueue = [] ∧
    (resetState { isPlaying := true, step := 7,
                  exec := ⟨["x"], ["y"], ["z"], ["w"], LookingAt.callback⟩ }).exec.consoleOutput = [] ∧
    (resetState { isPlaying := true, step := 7,
                  exec := ⟨["x"], ["y"], ["z"], ["w"], LookingAt.callback⟩ }).isPlaying = false :=
  claim6_reset_from_anywhere
    { isPlaying := true, step := 7, exec := ⟨["x"], ["y"], ["z"], ["w"], LookingAt.callback⟩ }

/-- C8: pressing the play/pause button while playing moves the player to
not-playing and changes nothing else: the index and every part of the
Execution State keep their values. -/
theorem claim8_pause_keeps_position :
    ∀ p : PlayerState, p.isPlaying = true →
      (togglePlay p).isPlaying = false ∧
      (togglePlay p).step = p.step ∧
      (togglePlay p).exec = p.exec := by
  intro p hp
  exact ⟨by simp [togglePlay, hp], rfl, rfl⟩

/-- Witness for C8 at a concrete mid-run player state. -/
theorem claim8_pause_keeps_position_witness :
    (togglePlay (runA 5)).isPlaying = false ∧
    (togglePlay (runA 5)).step = (runA 5).step ∧
    (togglePlay (runA 5)).exec = (runA 5).exec :=
  claim8_pause_keeps_position (runA 5) (by decide)

/-- C7 counterexample: transition 1 writes the console output (it changes
it at the initial state), yet applying transition 1 to two different
prior states yields two different values for that written component — the
`setConsoleOutput((prev) => [...prev, "Start"])` call depends on the
prior state, so the transitions are not purely positional writes. -/
theorem claim7_counterexample_prev_dependence :
    (stepA 1 initialState).consoleOutput ≠ initialState.consoleOutput ∧
    (stepA 1 ⟨[], [], [], ["x"], LookingAt.stack⟩).consoleOutput ≠
      (stepA 1 initialState).consoleOutput := by
  decide

/-- A branch-free per-field write plan for a list-valued field: keep it,
overwrite it with a constant, or append one fixed string to it. -/
inductive ListWrite where
  | keep
  | const (v : List String)
  | append (v : String)
deriving DecidableEq, Repr

/-- Apply a list-field write plan. -/
def applyListWrite (w : ListWrite) (l : List String) : List String :=
  match w with
  | ListWrite.keep => l
  | ListWrite.const v => v
  | ListWrite.append v => l ++ [v]

/-- A branch-free write plan for the focus field: keep or overwrite. -/
inductive FocusWrite where
  | keep
  | const (v : LookingAt)
deriving DecidableEq, Repr

/-- A whole-transition write plan: one plan per field, fixed by the step
index alone. -/
structure StepSpec where
  callStack : ListWrite
  microtaskQueue : ListWrite
  callbackQueue : ListWrite
  consoleOutput : ListWrite
  lookingAt : FocusWrite
deriving DecidableEq, Repr

/-- Apply a whole-transition write plan to a state. -/
def applySpec (w : StepSpec) (s : ExecState) : ExecState :=
  { callStack := applyListWrite w.callStack s.callStack
    microtaskQueue := applyListWrite w.microtaskQueue s.microtaskQueue
    callbackQueue := applyListWrite w.callbackQueue s.callbackQueue
    consoleOutput := applyListWrite w.consoleOutput s.consoleOutput
    lookingAt := match w.lookingAt with
      | FocusWrite.keep => s.lookingAt
      | FocusWrite.const v => v }

/-- The write plan that keeps every field. -/
def idSpec : StepSpec :=
  ⟨ListWrite.keep, ListWrite.keep, ListWrite.keep, ListWrite.keep, FocusWrite.keep⟩

/-- The write plans of the variant A step table, one per closure. -/
def specTableA : List StepSpec :=
  [ ⟨ListWrite.const ["Global Execution Context"], ListWrite.keep, ListWrite.keep,
      ListWrite.keep, FocusWrite.const LookingAt.stack⟩,
    ⟨ListWrite.const ["console.log(\"Start\")", "Global Execution Context"], ListWrite.keep,
      ListWrite.keep, ListWrite.append "Start", FocusWrite.const LookingAt.stack⟩,
    ⟨ListWrite.const ["Global Execution Context"], ListWrite.keep, ListWrite.keep,
      ListWrite.keep, FocusWrite.const LookingAt.stack⟩,
    ⟨ListWrite.keep, ListWrite.keep, ListWrite.append "() => console.log(\"Timeout\")",
      ListWrite.keep, FocusWrite.const LookingAt.callback⟩,
    ⟨ListWrite.keep, ListWrite.append "() => console.log(\"Promise\")", ListWrite.keep,
      ListWrite.keep, FocusWrite.const LookingAt.microtask⟩,
    ⟨ListWrite.const ["console.log(\"End\")", "Global Execution Context"], ListWrite.keep,
      ListWrite.keep, ListWrite.append "End", FocusWrite.const LookingAt.stack⟩,
    ⟨ListWrite.const ["Global Execution Context"], ListWrite.keep, ListWrite.keep,
      ListWrite.keep, FocusWrite.keep⟩,
    ⟨ListWrite.const [], ListWrite.keep, ListWrite.keep, ListWrite.keep,
      FocusWrite.const LookingAt.microtask⟩,
    ⟨ListWrite.const ["Promise callback"], ListWrite.const [], ListWrite.keep,
      ListWrite.append "Promise", FocusWrite.const LookingAt.stack⟩,
    ⟨ListWrite.const [], ListWrite.keep, ListWrite.keep, ListWrite.keep,
      FocusWrite.const LookingAt.callback⟩,
    ⟨ListWrite.const ["setTimeout callback"], ListWrite.keep, ListWrite.const [],
      ListWrite.append "Timeout", FocusWrite.const LookingAt.stack⟩,
    ⟨ListWrite.const [], ListWrite.keep, ListWrite.keep, ListWrite.keep,
      FocusWrite.const LookingAt.stack⟩,
    ⟨ListWrite.const [], ListWrite.keep, ListWrite.keep, ListWrite.keep,
      FocusWrite.const LookingAt.stack⟩ ]

/-- The write plans of the variant B step table, one per closure. -/
def specTableB : List StepSpec :=
  [ ⟨ListWrite.const ["Global Execution Context"], ListWrite.keep, ListWrite.keep,
      ListWrite.keep, FocusWrite.const LookingAt.stack⟩,
    ⟨ListWrite.const ["console.log(\"Start\")", "Global Execution Context"], ListWrite.keep,
      ListWrite.keep, ListWrite.append "Start", FocusWrite.const LookingAt.stack⟩,
    ⟨ListWrite.const ["Global Execution Context"], ListWrite.keep, ListWrite.keep,
      ListWrite.keep, FocusWrite.const LookingAt.stack⟩,
    ⟨ListWrite.keep, ListWrite.keep,
      ListWrite.append "setTimeout(() => console.log(\"Timeout\"))", ListWrite.keep,
      FocusWrite.const LookingAt.callback⟩,
    ⟨ListWrite.keep, ListWrite.append "Promise.then(() => console.log(\"Promise\"))",
      ListWrite.keep, ListWrite.keep, FocusWrite.const LookingAt.microtask⟩,
    ⟨ListWrite.const ["console.log(\"End\")", "Global Execution Context"], ListWrite.keep,
      ListWrite.keep, ListWrite.append "End", FocusWrite.const LookingAt.stack⟩,
    ⟨ListWrite.const ["Global Execution Context"], ListWrite.keep, ListWrite.keep,
      ListWrite.keep, FocusWrite.const LookingAt.microtask⟩,
    ⟨ListWrite.const ["Promise callback", "Global Execution Context"], ListWrite.const [],
      ListWrite.keep, ListWrite.append "Promise", FocusWrite.const LookingAt.stack⟩,
    ⟨ListWrite.const ["Global Execution Context"], ListWrite.keep, ListWrite.keep,
      ListWrite.keep, FocusWrite.const LookingAt.callback⟩,
    ⟨ListWrite.const ["setTimeout callback", "Global Execution Context"], ListWrite.keep,
      ListWrite.const [], ListWrite.append "Timeout", FocusWrite.const LookingAt.stack⟩,
    ⟨ListWrite.const ["Global Execution Context"], ListWrite.keep, ListWrite.keep,
      ListWrite.keep, FocusWrite.const LookingAt.stack⟩,
    ⟨ListWrite.const [], ListWrite.keep, ListWrite.keep, ListWrite.keep,
      FocusWrite.const LookingAt.stack⟩ ]

/-- C7 amended: every transition is branch-free, but not state-independent
in its written values: each transition equals the application of a fixed
per-field write plan — keep, overwrite with a constant, or append exactly
one fixed string — determined by the step index alone, so the only state
dependence is appending to the prior sequence. Stated for both variants,
with indices past the table being the keep-everything plan. -/
theorem claim7_amended_write_plans :
    ∀ i : Nat,
      (∀ s : ExecState, stepA i s = applySpec (specTableA.getD i idSpec) s) ∧
      (∀ s : ExecState, stepB i s = applySpec (specTableB.getD i idSpec) s) := by
  intro i
  constructor
  · intro s
    rcases i with _|_|_|_|_|_|_|_|_|_|_|_|_|i <;> rfl
  · intro s
    rcases i with _|_|_|_|_|_|_|_|_|_|_|_|i <;> rfl

/-- Witness for the amended theorem of C7 at step 1 of variant A and the
initial state. -/
theorem claim7_amended_write_plans_witness :
    stepA 1 initialState = applySpec (specTableA.getD 1 idSpec) initialState :=
  (claim7_amended_write_plans 1).1 initialState

/-- Each variant A transition leaves the console output unchanged or
appends exactly one string to its end. -/
theorem consoleStepA (i : Nat) (s : ExecState) :
    (stepA i s).consoleOutput = s.consoleOutput ∨
    ∃ x, (stepA i s).consoleOutput = s.consoleOutput ++ [x] := by
  rcases i with _|_|_|_|_|_|_|_|_|_|_|_|_|i <;>
    first
      | exact Or.inl rfl
      | exact Or.inr ⟨_, rfl⟩

/-- Each variant B transition leaves the console output unchanged or
appends exactly one string to its end. -/
theorem consoleStepB (i : Nat) (s : ExecState) :
    (stepB i s).consoleOutput = s.consoleOutput ∨
    ∃ x, (stepB i s).consoleOutput = s.consoleOutput ++ [x] := by
  rcases i with _|_|_|_|_|_|_|_|_|_|_|_|i <;>
    first
      | exact Or.inl rfl
      | exact Or.inr ⟨_, rfl⟩

/-- The console output after `n` replayed transitions of variant A is a
prefix of the one after `n + 1`. -/
theorem replayA_console_step (n : Nat) :
    (replayA n).consoleOutput <+: (replayA (n + 1)).consoleOutput := by
  rcases consoleStepA n (replayA n) with h | ⟨x, h⟩
  · exact ⟨[], by simp [replayA, h]⟩
  · exact ⟨[x], h.symm⟩

/-- The console output after `n` replayed transitions of variant B is a
prefix of the one after `n + 1`. -/
theorem replayB_console_step (n : Nat) :
    (replayB n).consoleOutput <+: (replayB (n + 1)).consoleOutput := by
  rcases consoleStepB n (replayB n) with h | ⟨x, h⟩
  · exact ⟨[], by simp [replayB, h]⟩
  · exact ⟨[x], h.symm⟩

/-- Console prefix monotonicity for variant A replays. -/
theorem replayA_console_mono (i j : Nat) (h : i ≤ j) :
    (replayA i).consoleOutput <+: (replayA j).consoleOutput := by
  induction j with
  | zero =>
    obtain rfl : i = 0 := Nat.le_zero.mp h
    exact ⟨[], List.append_nil _⟩
  | succ k ih =>
    by_cases hik : i ≤ k
    · exact (ih hik).trans (replayA_console_step k)
    · obtain rfl : i = k + 1 := Nat.le_antisymm h (Nat.not_le.mp hik)
      exact ⟨[], List.append_nil _⟩

/-- Console prefix monotonicity for variant B replays. -/
theorem replayB_console_mono (i j : Nat) (h : i ≤ j) :
    (replayB i).consoleOutput <+: (replayB j).consoleOutput := by
  induction j with
  | zero =>
    obtain rfl : i = 0 := Nat.le_zero.mp h
    exact ⟨[], List.append_nil _⟩
  | succ k ih =>
    by_cases hik : i ≤ k
    · exact (ih hik).trans (replayB_console_step k)
    · obtain rfl : i = k + 1 := Nat.le_antisymm h (Nat.not_le.mp hik)
      exact ⟨[], List.append_nil _⟩

/-- C9: the console output is append-only within a run: every transition
of either step table leaves it unchanged or appends exactly one string to
its end, and consequently for tick counts `i ≤ j` the console output
after `i` replayed transitions is a prefix of the one after `j`. -/
theorem claim9_console_append_only :
    (∀ (i : Nat) (s : ExecState),
      (stepA i s).consoleOutput = s.consoleOutput ∨
      ∃ x, (stepA i s).consoleOutput = s.consoleOutput ++ [x]) ∧
    (∀ (i : Nat) (s : ExecState),
      (stepB i s).consoleOutput = s.consoleOutput ∨
      ∃ x, (stepB i s).consoleOutput = s.consoleOutput ++ [x]) ∧
    (∀ i j : Nat, i ≤ j → (replayA i).consoleOutput <+: (replayA j).consoleOutput) ∧
    (∀ i j : Nat, i ≤ j → (replayB i).consoleOutput <+: (replayB j).consoleOutput) :=
  ⟨consoleStepA, consoleStepB, replayA_console_mono, replayB_console_mono⟩

/-- Witness for C9 at the concrete tick counts 2 ≤ 5 of variant A. -/
theorem claim9_console_append_only_witness :
    (replayA 2).consoleOutput <+: (replayA 5).consoleOutput :=
  claim9_console_append_only.2.2.1 2 5 (by decide)

/-- Transitions of variant A past the table leave the state unchanged. -/
theorem stepA_past_table (k : Nat) (s : ExecState) : stepA (k + 13) s = s := rfl

/-- Transitions of variant B past the table leave the state unchanged. -/
theorem stepB_past_table (k : Nat) (s : ExecState) : stepB (k + 12) s = s := rfl

/-- Variant A replays stabilize at the table length. -/
theorem replayA_stable : ∀ n : Nat, replayA (n + 13) = replayA 13
  | 0 => rfl
  | n + 1 => by
    have h1 : replayA (n + 1 + 13) = stepA (n + 13) (replayA (n + 13)) := rfl
    rw [h1, replayA_stable n, stepA_past_table n (replayA 13)]

/-- Variant B replays stabilize at the table length. -/
theorem replayB_stable : ∀ n : Nat, replayB (n + 12) = replayB 12
  | 0 => rfl
  | n + 1 => by
    have h1 : replayB (n + 1 + 12) = stepB (n + 12) (replayB (n + 12)) := rfl
    rw [h1, replayB_stable n, stepB_past_table n (replayB 12)]

/-- C10: in every state reachable by replaying the step table from the
initial all-empty state, in either variant, the microtask queue holds at
most one frame, the callback queue holds at most one frame, and the call
stack holds at most two frames. -/
theorem claim10_bounded_shapes :
    ∀ n : Nat,
      ((replayA n).microtaskQueue.length ≤ 1 ∧
       (replayA n).callbackQueue.length ≤ 1 ∧
       (replayA n).callStack.length ≤ 2) ∧
      ((replayB n).microtaskQueue.length ≤ 1 ∧
       (replayB n).callbackQueue.length ≤ 1 ∧
       (replayB n).callStack.length ≤ 2) := by
  intro n
  constructor
  · by_cases h : n ≤ 13
    · interval_cases n <;> decide
    · obtain ⟨k, rfl⟩ : ∃ k, n = k + 13 := ⟨n - 13, by omega⟩
      rw [replayA_stable k]
      decide
  · by_cases h : n ≤ 12
    · interval_cases n <;> decide
    · obtain ⟨k, rfl⟩ : ∃ k, n = k + 12 := ⟨n - 12, by omega⟩
      rw [replayB_stable k]
      decide

/-- Witness for C10 at the concrete tick count 5. -/
theorem claim10_bounded_shapes_witness :
    ((replayA 5).microtaskQueue.length ≤ 1 ∧
     (replayA 5).callbackQueue.length ≤ 1 ∧
     (replayA 5).callStack.length ≤ 2) ∧
    ((replayB 5).microtaskQueue.length ≤ 1 ∧
     (replayB 5).callbackQueue.length ≤ 1 ∧
     (replayB 5).callStack.length ≤ 2) :=
  claim10_bounded_shapes 5
